import Mathlib

/-!
Verification of the analytical core of `streamlit-openalex` (`app.py`):
the sustained-activity estimator `calculate_academic_age` and the
citation-distribution analyzer `calculate_author_metrics`.

Embedding conventions:
* The list of work records and the author profile are explicit inputs.
  In `app.py`, `calculate_academic_age` first fetches the works from the
  network and reads the wall clock; the publication-data source and the
  reference year are external collaborators, so the embedded functions
  receive the already-fetched `works : List Work` and the reference year
  `cy : ℤ` (`current_year = datetime.now().year`) as parameters.  Everything
  from the `if not works` check onward is translated line by line.
* Python floats are IEEE-754 binary64 values.  Every such value is embedded
  as the exact rational it denotes, and every float operation rounds its
  exact rational result back to 53 significant bits with round-to-nearest,
  ties-to-even (`fl`).  A Python float literal `0.4` denotes
  `fl (2/5)`, and `int(x)` truncates toward zero (`pyTrunc`).  Subnormals
  and overflow are outside the magnitudes reachable here and are not
  modelled.  `round(x, d)` rounds the exact value of `x` half-to-even at the
  `d`-th decimal and returns the nearest double (`pyRound`); for an `int`
  argument of magnitude ≥ 2^53 Python would keep it exact where `pyRound`
  rounds, a difference no claim touches.
* Rational arithmetic is written with `Rat.divInt`-based helpers
  (`qadd`, `qmul`, …) that are definitionally equal to the field operations
  but kernel-reducible, so concrete runs can be checked by `decide`.
* `list.sort()` / `sorted(...)` are stable sorts; `List.insertionSort`
  computes the identical output list.  `str.lower()` is modelled on the
  ASCII range (`lowerStr`), which agrees with Python on every label used in
  the developments below.
-/

set_option maxRecDepth 1000000

namespace OpenAlex

/-- Fuel-driven base-2 integer logarithm (structural recursion, so that the
kernel can evaluate it; `Nat.log2` is defined by well-founded recursion). -/
def log2f : Nat → Nat → Nat
  | 0, _ => 0
  | f+1, n => if 2 ≤ n then log2f f (n / 2) + 1 else 0

/-- Base-2 integer logarithm, with fuel amply covering the binary64 range. -/
def nlog2 (n : Nat) : Nat := log2f 1100 n

/-- An integer as a rational. -/
def intQ (n : ℤ) : ℚ := Rat.divInt n 1

/-- Exact rational addition, bypassing the `irreducible` field operation. -/
def qadd (a b : ℚ) : ℚ := Rat.divInt (a.num * b.den + b.num * a.den) (a.den * b.den)

/-- Exact rational subtraction. -/
def qsub (a b : ℚ) : ℚ := Rat.divInt (a.num * b.den - b.num * a.den) (a.den * b.den)

/-- Exact rational multiplication. -/
def qmul (a b : ℚ) : ℚ := Rat.divInt (a.num * b.num) (a.den * b.den)

/-- Exact rational division (0 when the divisor is 0). -/
def qdiv (a b : ℚ) : ℚ := Rat.divInt (a.num * b.den) (a.den * b.num)

/-- The smaller of two rationals, the first on ties (Python's 2-ary `min`). -/
def qmin (a b : ℚ) : ℚ := if a ≤ b then a else b

/-- 2^k as a rational, for an integer exponent k. -/
def pow2 (k : ℤ) : ℚ := if 0 ≤ k then Rat.divInt (2 ^ k.toNat) 1 else Rat.divInt 1 (2 ^ (-k).toNat)

/-- Round a rational to the nearest integer, ties to even. -/
def rhe (q : ℚ) : ℤ :=
  let n : ℤ := q.floor
  let f : ℚ := qsub q (intQ n)
  if f < Rat.divInt 1 2 then n
  else if Rat.divInt 1 2 < f then n + 1
  else if n % 2 = 0 then n else n + 1

/-- Floor of the base-2 logarithm of a positive rational. -/
def floorLog2 (q : ℚ) : ℤ :=
  let e : ℤ := (nlog2 q.num.natAbs : ℤ) - (nlog2 q.den : ℤ)
  if pow2 (e+1) ≤ q then e + 1
  else if pow2 e ≤ q then e
  else e - 1

/-- Round a positive rational to the nearest binary64 value. -/
def flPos (q : ℚ) : ℚ :=
  let e : ℤ := floorLog2 q
  qmul (intQ (rhe (qmul q (pow2 (52 - e))))) (pow2 (e - 52))

/-- Round a rational to the nearest IEEE-754 binary64 value (normal range). -/
def fl (q : ℚ) : ℚ :=
  if q = 0 then 0 else if q < 0 then -(flPos (-q)) else flPos q

/-- Binary64 addition: the exact sum, rounded. -/
def dadd (a b : ℚ) : ℚ := fl (qadd a b)

/-- Binary64 multiplication: the exact product, rounded. -/
def dmul (a b : ℚ) : ℚ := fl (qmul a b)

/-- Binary64 division of two integers (Python's true division `a / b`). -/
def idiv (a b : ℤ) : ℚ := fl (Rat.divInt a b)

/-- Python's `int(x)` on a float: truncation toward zero. -/
def pyTrunc (q : ℚ) : ℤ := if q < 0 then -((-q).floor) else q.floor

/-- Python's `round(x, d)` on a float: round the exact value half-to-even at
the d-th decimal, then take the nearest double. -/
def pyRound (d : ℕ) (x : ℚ) : ℚ :=
  fl (Rat.divInt (rhe (qmul x (intQ ((10:ℤ) ^ d)))) ((10:ℤ) ^ d))

/-- ASCII `str.lower()`. -/
def lowerStr (s : String) : String := ⟨s.data.map Char.toLower⟩

/-- Deduplication: a list with the same distinct members as the input.
Python builds a `set`; only membership, emptiness and cardinality of that set
are ever consumed, so any duplicate-free representative is faithful. -/
def dedupStr : List String → List String
  | [] => []
  | a :: as => if a ∈ as then dedupStr as else a :: dedupStr as

/-- One topic label of a work or an author profile (`display_name` may be
missing). -/
structure Concept where
  display_name : Option String
deriving DecidableEq, Repr

/-- One publication record as consumed by the core: `publication_year`
(integer or absent), `cited_by_count` (integer or absent, read with default
0), `concepts` (ordered topic labels). -/
structure Work where
  publication_year : Option ℤ
  cited_by_count : Option ℤ
  concepts : List Concept
deriving DecidableEq, Repr

/-- The author profile fields the estimator reads (`author.get('x_concepts',
[])`; a missing key is the empty list). -/
structure Author where
  x_concepts : List Concept
deriving DecidableEq, Repr

/-- The result dictionary of `calculate_academic_age`. -/
structure AgeResult where
  academic_age : Option ℤ
  confidence_score : ℤ
  confidence_level : String
  first_pub_year : Option ℤ
  earliest_pub_year : Option ℤ
  excluded_pubs : ℕ
  notes : String
deriving DecidableEq, Repr

/-- The year sanity filter: `if year and year > 1900 and year <= current_year`
(Python truthiness of an integer is `≠ 0`). -/
def validYear (cy y : ℤ) : Bool := decide (y ≠ 0 ∧ 1900 < y ∧ y ≤ cy)

/-- The filtered publication-year list (`pub_years` before sorting). -/
def validYearsOf (cy : ℤ) (works : List Work) : List ℤ :=
  works.filterMap fun w => match w.publication_year with
    | some y => if validYear cy y then some y else none
    | none => none

/-- `pub_years.sort()`. -/
def sortedYearsOf (cy : ℤ) (works : List Work) : List ℤ :=
  (validYearsOf cy works).insertionSort (· ≤ ·)

/-- `earliest_year = pub_years[0]` after sorting. -/
def earliestOf (cy : ℤ) (works : List Work) : ℤ := (sortedYearsOf cy works).headD 0

/-- `sum(year_counts.get(y, 0) for y in range(year, year + 3))`: the
histogram is the multiset of filtered years, so a lookup is a count. -/
def windowSumOf (cy : ℤ) (works : List Work) (y : ℤ) : ℕ :=
  (sortedYearsOf cy works).count y + (sortedYearsOf cy works).count (y+1) +
    (sortedYearsOf cy works).count (y+2)

/-- The loop condition `pubs_in_window >= 2`. -/
def sustainedPred (cy : ℤ) (works : List Work) (y : ℤ) : Bool :=
  decide (2 ≤ windowSumOf cy works y)

/-- `for year in range(start, start+n): if p(year): return year`. -/
def findFrom (p : ℤ → Bool) : ℤ → ℕ → Option ℤ
  | _, 0 => none
  | y, n+1 => if p y then some y else findFrom p (y+1) n

/-- The first sustained year, with fallback to `earliest_year` when the scan
over `range(earliest_year, current_year + 1)` finds none. -/
def sustainedStartOf (cy : ℤ) (works : List Work) : ℤ :=
  (findFrom (sustainedPred cy works) (earliestOf cy works)
    (cy + 1 - earliestOf cy works).toNat).getD (earliestOf cy works)

/-- `excluded_pubs = sum(1 for y in pub_years if y < sustained_start_year)`. -/
def excludedOf (cy : ℤ) (works : List Work) : ℕ :=
  (sortedYearsOf cy works).countP fun y => decide (y < sustainedStartOf cy works)

/-- `gap_before_sustained = sustained_start_year - earliest_year`. -/
def gapOf (cy : ℤ) (works : List Work) : ℤ :=
  sustainedStartOf cy works - earliestOf cy works

/-- The temporal-consistency component (weight 0.4). -/
def temporalScoreOf (cy : ℤ) (works : List Work) : ℚ :=
  if gapOf cy works = 0 then 1
  else if gapOf cy works ≤ 2 then fl (Rat.divInt 9 10)
  else if gapOf cy works ≤ 5 then fl (Rat.divInt 7 10)
  else if gapOf cy works ≤ 10 then Rat.divInt 1 2
  else fl (Rat.divInt 3 10)

/-- `early_period_pubs`: filtered years in the early five-year window. -/
def earlyCountOf (cy : ℤ) (works : List Work) : ℕ :=
  (sortedYearsOf cy works).countP fun y =>
    decide (sustainedStartOf cy works ≤ y ∧ y < sustainedStartOf cy works + 5)

/-- The publication-volume component (weight 0.3). -/
def volumeScoreOf (cy : ℤ) (works : List Work) : ℚ :=
  if 10 ≤ earlyCountOf cy works then 1
  else if 5 ≤ earlyCountOf cy works then fl (Rat.divInt 4 5)
  else if 3 ≤ earlyCountOf cy works then fl (Rat.divInt 3 5)
  else fl (Rat.divInt 2 5)

/-- The lower-cased label of a concept, dropped when missing or empty.  Both
Python spellings (`if c.get('display_name')` then lower, and lower of
`c.get('display_name', '')` then truthiness) yield exactly this. -/
def conceptLabel (c : Concept) : Option String :=
  match c.display_name with
  | some s => if s = "" then none else some (lowerStr s)
  | none => none

/-- The author's top-10 declared labels (`top_author_concepts`, consumed as a
set: membership, emptiness). -/
def topAuthorConceptsOf (author : Author) : List String :=
  (author.x_concepts.take 10).filterMap conceptLabel

/-- `early_works`: works whose raw `publication_year` is truthy and inside
`[sustained_start_year, sustained_start_year + 5)` — note: the raw year, not
the filtered one. -/
def earlyWorksOf (cy : ℤ) (works : List Work) : List Work :=
  works.filter fun w => match w.publication_year with
    | some y => decide (y ≠ 0 ∧ sustainedStartOf cy works ≤ y ∧
        y < sustainedStartOf cy works + 5)
    | none => false

/-- The labels gathered into `early_concepts`: top 5 concepts of each of the
first 10 early works (as a list; consumed as a set). -/
def earlyConceptListOf (cy : ℤ) (works : List Work) : List String :=
  (((earlyWorksOf cy works).take 10).map fun w =>
    (w.concepts.take 5).filterMap conceptLabel).flatten

/-- `overlap = len(early_concepts & top_author_concepts)`. -/
def overlapOf (cy : ℤ) (works : List Work) (author : Author) : ℕ :=
  (dedupStr (earlyConceptListOf cy works)).countP fun nm =>
    (topAuthorConceptsOf author).contains nm

/-- The topic-consistency component (weight 0.3), with all of the neutral-0.5
fallbacks of the source. -/
def topicScoreOf (cy : ℤ) (works : List Work) (author : Author) : ℚ :=
  if author.x_concepts ≠ [] ∧ 5 ≤ works.length then
    if earlyWorksOf cy works ≠ [] then
      if earlyConceptListOf cy works ≠ [] ∧ topAuthorConceptsOf author ≠ [] then
        qmin (idiv (overlapOf cy works author) 5) 1
      else Rat.divInt 1 2
    else Rat.divInt 1 2
  else Rat.divInt 1 2

/-- `sum(score * weight for ...)` over the three weighted components, in
float arithmetic and in the source's order. -/
def weightedTotal (t v p : ℚ) : ℚ :=
  dadd (dadd (dadd 0 (dmul t (fl (Rat.divInt 2 5)))) (dmul v (fl (Rat.divInt 3 10))))
    (dmul p (fl (Rat.divInt 3 10)))

/-- `confidence_percentage = int(total_confidence * 100)`. -/
def confFrom (t v p : ℚ) : ℤ := pyTrunc (dmul (weightedTotal t v p) (intQ 100))

/-- The confidence score of an author record with valid years. -/
def confidenceScoreOf (cy : ℤ) (works : List Work) (author : Author) : ℤ :=
  confFrom (temporalScoreOf cy works) (volumeScoreOf cy works) (topicScoreOf cy works author)

/-- The thresholds `>= 80 → High`, `>= 60 → Medium`, else `Low`. -/
def confidenceLevelOf (n : ℤ) : String :=
  if 80 ≤ n then "High" else if 60 ≤ n then "Medium" else "Low"

/-- The `notes` field of the main path. -/
def notesOf (cy : ℤ) (works : List Work) : String :=
  let parts : List String :=
    (if 0 < excludedOf cy works then
      [s!"Excluded {excludedOf cy works} publication(s) before sustained activity"] else [])
    ++ (if 5 < gapOf cy works then
      [s!"{gapOf cy works}-year gap before sustained activity"] else [])
    ++ (if excludedOf cy works = 0 ∧ gapOf cy works = 0 then ["No outliers detected"] else [])
  if parts.isEmpty then "Based on sustained publication activity"
  else String.intercalate "; " parts

/-- The terminal result for an empty works list. -/
def noPubsResult : AgeResult :=
  { academic_age := none, confidence_score := 0, confidence_level := "N/A",
    first_pub_year := none, earliest_pub_year := none, excluded_pubs := 0,
    notes := "No publications found" }

/-- The terminal result when no publication year survives the filter. -/
def noValidYearsResult : AgeResult :=
  { academic_age := none, confidence_score := 0, confidence_level := "N/A",
    first_pub_year := none, earliest_pub_year := none, excluded_pubs := 0,
    notes := "No valid publication years found" }

/-- `calculate_academic_age` from the `if not works` check onward, with the
fetched works list and the reference year injected. -/
def calculate_academic_age (cy : ℤ) (works : List Work) (author : Author) : AgeResult :=
  if works.isEmpty then noPubsResult
  else if (validYearsOf cy works).isEmpty then noValidYearsResult
  else
    { academic_age := some (cy - sustainedStartOf cy works),
      confidence_score := confidenceScoreOf cy works author,
      confidence_level := confidenceLevelOf (confidenceScoreOf cy works author),
      first_pub_year := some (sustainedStartOf cy works),
      earliest_pub_year := some (earliestOf cy works),
      excluded_pubs := excludedOf cy works,
      notes := notesOf cy works }

/-- The metrics dictionary of `calculate_author_metrics`. -/
structure Metrics where
  median_citations : ℚ
  mean_citations : ℚ
  top_10_concentration : ℚ
  recent_activity_rate : ℚ
  h_index_efficiency : ℚ
deriving DecidableEq, Repr

/-- `work.get('cited_by_count', 0)`. -/
def citationOf (w : Work) : ℤ := w.cited_by_count.getD 0

/-- `citation_counts = [work.get('cited_by_count', 0) for work in works]`. -/
def citationsOf (works : List Work) : List ℤ := works.map citationOf

/-- `sorted(citation_counts, reverse=True)`. -/
def citationsDescOf (works : List Work) : List ℤ :=
  (citationsOf works).insertionSort (· ≥ ·)

/-- `statistics.median`, which raises on an empty list (modelled as `none`)
and otherwise indexes the sorted data; the even case divides two ints in
float arithmetic. -/
def pyMedian? (xs : List ℤ) : Option ℚ :=
  let s := xs.insertionSort (· ≤ ·)
  let n := xs.length
  if n = 0 then none
  else if n % 2 = 1 then (s.get? (n / 2)).map fun a => (intQ a)
  else do
    let a ← s.get? (n / 2 - 1)
    let b ← s.get? (n / 2)
    some (idiv (a + b) 2)

/-- `statistics.mean`, which raises on an empty list (modelled as `none`) and
otherwise returns the exact mean converted to float. -/
def pyMean? (xs : List ℤ) : Option ℚ :=
  if xs.length = 0 then none else some (fl (Rat.divInt xs.sum xs.length))

/-- Python's true division of two ints, which raises on a zero divisor
(modelled as `none`). -/
def pyDivInt? (a b : ℤ) : Option ℚ := if b = 0 then none else some (idiv a b)

/-- `total_citations = sum(citation_counts)`. -/
def totalCitationsOf (works : List Work) : ℤ := (citationsOf works).sum

/-- `top_10_percent_count = max(1, len(works) // 10)`. -/
def topKOf (works : List Work) : ℕ := max 1 (works.length / 10)

/-- `top_10_percent_citations = sum(citation_counts_sorted[:k])`. -/
def topSumOf (works : List Work) : ℤ := ((citationsDescOf works).take (topKOf works)).sum

/-- `w.get('publication_year', 0) >= current_year - 5`. -/
def isRecent (cy : ℤ) (w : Work) : Bool := decide (cy - 5 ≤ w.publication_year.getD 0)

/-- `len(recent_works)`. -/
def recentCountOf (cy : ℤ) (works : List Work) : ℕ := works.countP (isRecent cy)

/-- The all-zero metrics returned for an empty (or failed) works list. -/
def zeroMetrics : Metrics :=
  { median_citations := 0, mean_citations := 0, top_10_concentration := 0,
    recent_activity_rate := 0, h_index_efficiency := 0 }

/-- `calculate_author_metrics`, with the reference year injected and every
operation that can raise (`statistics` on empty data, division by zero)
modelled in `Option`; `none` would mean an uncaught exception. -/
def calculate_author_metrics (cy : ℤ) (works : List Work) (h_index : ℤ)
    (works_count : ℤ) : Option Metrics :=
  if works.isEmpty then some zeroMetrics
  else
    (if (citationsOf works).isEmpty then some (0:ℚ)
      else pyMedian? (citationsOf works)).bind fun med =>
    (if (citationsOf works).isEmpty then some (0:ℚ)
      else pyMean? (citationsOf works)).bind fun mn =>
    (if 0 < totalCitationsOf works then
        (pyDivInt? (topSumOf works) (totalCitationsOf works)).bind fun q =>
          some (dmul q (intQ 100))
      else some (0:ℚ)).bind fun conc =>
    (if works.isEmpty then some (0:ℚ)
      else (pyDivInt? (recentCountOf cy works) works.length).bind fun q =>
          some (dmul q (intQ 100))).bind fun rate =>
    (if 0 < works_count then pyDivInt? h_index works_count
      else some (0:ℚ)).bind fun eff =>
    some { median_citations := pyRound 1 med,
           mean_citations := pyRound 1 mn,
           top_10_concentration := pyRound 1 conc,
           recent_activity_rate := pyRound 1 rate,
           h_index_efficiency := pyRound 3 eff }

/-! Concrete inputs used by counterexamples and witnesses. -/

/-- Scenario A of the spec: one work per year in
`[2005, 2012, 2013, 2018, 2019, 2020]`, no concept data. -/
def scenAworks : List Work :=
  [⟨some 2005, some 0, []⟩, ⟨some 2012, some 0, []⟩, ⟨some 2013, some 0, []⟩,
   ⟨some 2018, some 0, []⟩, ⟨some 2019, some 0, []⟩, ⟨some 2020, some 0, []⟩]

/-- A profile with no usable concept data. -/
def authEmpty : Author := ⟨[]⟩

/-- Scenario B of the spec: years `[2020, 2021]`. -/
def scenBworks : List Work := [⟨some 2020, some 1, []⟩, ⟨some 2021, some 2, []⟩]

/-- The citation-metrics scenario: counts `[5,3,50,2,1,0,100,4,6,7]`, no
years. -/
def scenCworks : List Work :=
  [⟨none, some 5, []⟩, ⟨none, some 3, []⟩, ⟨none, some 50, []⟩, ⟨none, some 2, []⟩,
   ⟨none, some 1, []⟩, ⟨none, some 0, []⟩, ⟨none, some 100, []⟩, ⟨none, some 4, []⟩,
   ⟨none, some 6, []⟩, ⟨none, some 7, []⟩]

/-- A work with an in-range year and no citations. -/
def w2000 : Work := ⟨some 2000, some 0, []⟩

/-- A work whose year 3000 is outside the valid range for any present-day
reference year. -/
def w3000 : Work := ⟨some 3000, some 0, []⟩

/-- Five works in 2020 carrying no concepts. -/
def worksC5 : List Work := List.replicate 5 ⟨some 2020, some 0, []⟩

/-- A profile declaring one concept. -/
def authC5 : Author := ⟨[⟨some "biology"⟩]⟩

/-! Basic facts about the embedded functions. -/

theorem works_ne_of_valid {cy : ℤ} {works : List Work}
    (h : validYearsOf cy works ≠ []) : works ≠ [] := by
  intro hw
  exact h (by simp [hw, validYearsOf])

theorem isEmpty_false_of_ne {α : Type} {l : List α} (h : l ≠ []) :
    l.isEmpty = false := by
  cases l with
  | nil => exact absurd rfl h
  | cons a as => rfl

theorem calculate_academic_age_main (cy : ℤ) (works : List Work) (author : Author)
    (hne : validYearsOf cy works ≠ []) :
    calculate_academic_age cy works author =
    { academic_age := some (cy - sustainedStartOf cy works),
      confidence_score := confidenceScoreOf cy works author,
      confidence_level := confidenceLevelOf (confidenceScoreOf cy works author),
      first_pub_year := some (sustainedStartOf cy works),
      earliest_pub_year := some (earliestOf cy works),
      excluded_pubs := excludedOf cy works,
      notes := notesOf cy works } := by
  unfold calculate_academic_age
  rw [isEmpty_false_of_ne (works_ne_of_valid hne), isEmpty_false_of_ne hne]
  rfl

/-- C6: a work list that is empty, or whose every `publication_year` fails
the `(1900, current_year]` filter, produces exactly the terminal no-data result
(`academic_age` absent, `confidence_score = 0`, `confidence_level = 'N/A'`,
with the corresponding explanatory note), and every other input produces a
present `academic_age`. -/
theorem c6_terminal_state (cy : ℤ) (works : List Work) (author : Author) :
    (works = [] → calculate_academic_age cy works author =
      { academic_age := none, confidence_score := 0, confidence_level := "N/A",
        first_pub_year := none, earliest_pub_year := none, excluded_pubs := 0,
        notes := "No publications found" }) ∧
    (works ≠ [] → validYearsOf cy works = [] →
      calculate_academic_age cy works author =
      { academic_age := none, confidence_score := 0, confidence_level := "N/A",
        first_pub_year := none, earliest_pub_year := none, excluded_pubs := 0,
        notes := "No valid publication years found" }) ∧
    (validYearsOf cy works ≠ [] →
      (calculate_academic_age cy works author).academic_age =
        some (cy - sustainedStartOf cy works)) := by
  refine ⟨?_, ?_, ?_⟩
  · intro hw
    subst hw
    rfl
  · intro hw hv
    unfold calculate_academic_age
    rw [isEmpty_false_of_ne hw, hv]
    rfl
  · intro hv
    rw [calculate_academic_age_main cy works author hv]

/-- Witness for C6: the three branches at concrete inputs. -/
theorem c6_terminal_state_witness :
    calculate_academic_age 2024 [] authEmpty =
      { academic_age := none, confidence_score := 0, confidence_level := "N/A",
        first_pub_year := none, earliest_pub_year := none, excluded_pubs := 0,
        notes := "No publications found" } ∧
    calculate_academic_age 2024 [w3000] authEmpty =
      { academic_age := none, confidence_score := 0, confidence_level := "N/A",
        first_pub_year := none, earliest_pub_year := none, excluded_pubs := 0,
        notes := "No valid publication years found" } ∧
    (calculate_academic_age 2024 scenBworks authEmpty).academic_age =
      some (2024 - sustainedStartOf 2024 scenBworks) :=
  ⟨(c6_terminal_state 2024 [] authEmpty).1 rfl,
   (c6_terminal_state 2024 [w3000] authEmpty).2.1 (by decide) (by decide),
   (c6_terminal_state 2024 scenBworks authEmpty).2.2 (by decide)⟩

/-- C3 counterexample: on Scenario A (years `[2005, 2012, 2013, 2018, 2019,
2020]`, current year 2024, no concept data) the code does NOT return
`sustained_start_year = 2012` or `academic_age = 12`: the ascending scan
already succeeds at candidate 2011, whose window `[2011, 2013]` holds the
2012 and 2013 publications. -/
theorem c3_scenA_counterexample :
    (calculate_academic_age 2024 scenAworks authEmpty).first_pub_year ≠ some 2012 ∧
    (calculate_academic_age 2024 scenAworks authEmpty).academic_age ≠ some 12 := by
  decide

/-- C3 amended: on Scenario A the code returns `sustained_start_year = 2011`
(the first window `[2011, 2013]` with ≥ 2 publications), `academic_age = 13`,
`excluded_count = 1`, temporal component `0.5` (gap 6), volume component
`0.4` (2 early works), topic component `0.5`, `confidence_score = 47`,
`confidence_level = Low`. -/
theorem c3_scenA_run :
    (calculate_academic_age 2024 scenAworks authEmpty).first_pub_year = some 2011 ∧
    (calculate_academic_age 2024 scenAworks authEmpty).academic_age = some 13 ∧
    (calculate_academic_age 2024 scenAworks authEmpty).excluded_pubs = 1 ∧
    temporalScoreOf 2024 scenAworks = Rat.divInt 1 2 ∧
    gapOf 2024 scenAworks = 6 ∧
    volumeScoreOf 2024 scenAworks = fl (Rat.divInt 2 5) ∧
    topicScoreOf 2024 scenAworks authEmpty = Rat.divInt 1 2 ∧
    (calculate_academic_age 2024 scenAworks authEmpty).confidence_score = 47 ∧
    (calculate_academic_age 2024 scenAworks authEmpty).confidence_level = "Low" := by
  decide

/-- C8: both embedded components are pure functions of the injected inputs
(works list, profile, reference year): equal inputs give identical results.
The network fetch and the wall-clock read in `app.py` sit outside the core on
the collaborator side of the boundary. -/
theorem c8_deterministic (cy h wc : ℤ) (works works' : List Work) (a a' : Author)
    (hw : works = works') (ha : a = a') :
    calculate_academic_age cy works a = calculate_academic_age cy works' a' ∧
    calculate_author_metrics cy works h wc = calculate_author_metrics cy works' h wc := by
  subst hw
  subst ha
  exact ⟨rfl, rfl⟩

/-- Witness for C8 at a concrete input. -/
theorem c8_deterministic_witness :
    calculate_academic_age 2024 scenBworks authEmpty =
      calculate_academic_age 2024 scenBworks authEmpty ∧
    calculate_author_metrics 2024 scenBworks 8 10 =
      calculate_author_metrics 2024 scenBworks 8 10 :=
  c8_deterministic 2024 8 10 scenBworks scenBworks authEmpty authEmpty rfl rfl

/-- C4 counterexample: a work whose `publication_year` (3000) is outside the
valid range `(1900, current_year]` nevertheless changes
`recent_activity_pct`: the analyzer's recency test reads the raw year, so
adding the year-3000 work moves the rate from 0% to 50%. -/
theorem c4_invalid_year_counterexample :
    validYear 2025 3000 = false ∧
    (calculate_author_metrics 2025 [w2000] 0 1).map Metrics.recent_activity_rate =
      some 0 ∧
    (calculate_author_metrics 2025 [w2000, w3000] 0 2).map Metrics.recent_activity_rate =
      some (intQ 50) ∧
    (calculate_author_metrics 2025 [w2000] 0 1).map Metrics.recent_activity_rate ≠
      (calculate_author_metrics 2025 [w2000, w3000] 0 2).map Metrics.recent_activity_rate := by
  decide

/-- C4 amended: the `(1900, current_year]` filter does govern everything the
estimator derives from the year histogram — two work lists with the same
filtered year list agree on `academic_age`, `first_pub_year`,
`earliest_pub_year`, `excluded_pubs` and on the temporal and volume
components — but it does not reach the topic component's early-works scan or
the analyzer's recency test, which read raw `publication_year` values. -/
theorem c4_filter_scope (cy : ℤ) (works works' : List Work) (a a' : Author)
    (hw : works ≠ []) (hw' : works' ≠ [])
    (hv : validYearsOf cy works = validYearsOf cy works') :
    (calculate_academic_age cy works a).academic_age =
      (calculate_academic_age cy works' a').academic_age ∧
    (calculate_academic_age cy works a).first_pub_year =
      (calculate_academic_age cy works' a').first_pub_year ∧
    (calculate_academic_age cy works a).earliest_pub_year =
      (calculate_academic_age cy works' a').earliest_pub_year ∧
    (calculate_academic_age cy works a).excluded_pubs =
      (calculate_academic_age cy works' a').excluded_pubs ∧
    temporalScoreOf cy works = temporalScoreOf cy works' ∧
    volumeScoreOf cy works = volumeScoreOf cy works' := by
  have hs : sortedYearsOf cy works = sortedYearsOf cy works' := by
    unfold sortedYearsOf
    rw [hv]
  have hE : earliestOf cy works = earliestOf cy works' := by
    unfold earliestOf
    rw [hs]
  have hP : sustainedPred cy works = sustainedPred cy works' := by
    funext y
    unfold sustainedPred windowSumOf
    rw [hs]
  have hS : sustainedStartOf cy works = sustainedStartOf cy works' := by
    unfold sustainedStartOf
    rw [hP, hE]
  have hX : excludedOf cy works = excludedOf cy works' := by
    unfold excludedOf
    rw [hs, hS]
  have hGap : gapOf cy works = gapOf cy works' := by
    unfold gapOf
    rw [hS, hE]
  have hT : temporalScoreOf cy works = temporalScoreOf cy works' := by
    unfold temporalScoreOf
    rw [hGap]
  have hEC : earlyCountOf cy works = earlyCountOf cy works' := by
    unfold earlyCountOf
    rw [hs, hS]
  have hV : volumeScoreOf cy works = volumeScoreOf cy works' := by
    unfold volumeScoreOf
    rw [hEC]
  by_cases hvE : validYearsOf cy works = []
  · have hvE' : validYearsOf cy works' = [] := hv ▸ hvE
    unfold calculate_academic_age
    rw [isEmpty_false_of_ne hw, isEmpty_false_of_ne hw', hvE, hvE']
    exact ⟨rfl, rfl, rfl, rfl, hT, hV⟩
  · have hvE' : validYearsOf cy works' ≠ [] := by
      rw [← hv]
      exact hvE
    rw [calculate_academic_age_main cy works a hvE,
      calculate_academic_age_main cy works' a' hvE']
    exact ⟨by rw [hS], by rw [hS], by rw [hE], by rw [hX], hT, hV⟩

/-- Witness for the amended C4: adding the invalid year-3000 work leaves the
year-histogram metrics untouched. -/
theorem c4_filter_scope_witness :
    (calculate_academic_age 2025 [w2000] authEmpty).academic_age =
      (calculate_academic_age 2025 [w2000, w3000] authEmpty).academic_age ∧
    (calculate_academic_age 2025 [w2000] authEmpty).first_pub_year =
      (calculate_academic_age 2025 [w2000, w3000] authEmpty).first_pub_year ∧
    (calculate_academic_age 2025 [w2000] authEmpty).earliest_pub_year =
      (calculate_academic_age 2025 [w2000, w3000] authEmpty).earliest_pub_year ∧
    (calculate_academic_age 2025 [w2000] authEmpty).excluded_pubs =
      (calculate_academic_age 2025 [w2000, w3000] authEmpty).excluded_pubs ∧
    temporalScoreOf 2025 [w2000] = temporalScoreOf 2025 [w2000, w3000] ∧
    volumeScoreOf 2025 [w2000] = volumeScoreOf 2025 [w2000, w3000] :=
  c4_filter_scope 2025 [w2000] [w2000, w3000] authEmpty authEmpty
    (by decide) (by decide) (by decide)

/-- C5 counterexample: with a non-empty `top_concepts` and 5 works (so the
claim's eligibility condition holds) but concept-free early works, the code
keeps the neutral topic score 0.5 while the claimed formula
`min(intersection/5, 1)` gives 0. -/
theorem c5_topic_counterexample :
    (authC5.x_concepts ≠ [] ∧ 5 ≤ worksC5.length) ∧
    topicScoreOf 2024 worksC5 authC5 = Rat.divInt 1 2 ∧
    qmin (idiv (overlapOf 2024 worksC5 authC5) 5) 1 = 0 ∧
    topicScoreOf 2024 worksC5 authC5 ≠
      qmin (idiv (overlapOf 2024 worksC5 authC5) 5) 1 := by
  decide

theorem earlyConceptList_eq_nil {cy : ℤ} {works : List Work}
    (h : earlyWorksOf cy works = []) : earlyConceptListOf cy works = [] := by
  unfold earlyConceptListOf
  rw [h]
  rfl

/-- C5 amended: the topic component equals `min(intersection/5, 1)` when
`top_concepts` is non-empty, there are at least 5 works, and additionally
both collected case-insensitive label sets are non-empty; in every other
case — ineligibility, or an empty early-window or author label set — it is
the neutral 0.5. -/
theorem c5_topic_component (cy : ℤ) (works : List Work) (author : Author) :
    (author.x_concepts ≠ [] → 5 ≤ works.length →
      earlyConceptListOf cy works ≠ [] → topAuthorConceptsOf author ≠ [] →
      topicScoreOf cy works author = qmin (idiv (overlapOf cy works author) 5) 1) ∧
    ((author.x_concepts = [] ∨ works.length < 5) →
      topicScoreOf cy works author = Rat.divInt 1 2) ∧
    (author.x_concepts ≠ [] → 5 ≤ works.length →
      (earlyConceptListOf cy works = [] ∨ topAuthorConceptsOf author = []) →
      topicScoreOf cy works author = Rat.divInt 1 2) := by
  refine ⟨?_, ?_, ?_⟩
  · intro h1 h2 h3 h4
    have hew : earlyWorksOf cy works ≠ [] := fun h => h3 (earlyConceptList_eq_nil h)
    unfold topicScoreOf
    rw [if_pos ⟨h1, h2⟩, if_pos hew, if_pos ⟨h3, h4⟩]
  · intro h
    unfold topicScoreOf
    rw [if_neg]
    rintro ⟨hne, hlen⟩
    rcases h with h | h
    · exact hne h
    · omega
  · intro h1 h2 h3
    unfold topicScoreOf
    rw [if_pos ⟨h1, h2⟩]
    by_cases hew : earlyWorksOf cy works = []
    · rw [if_neg (fun h => h hew)]
    · rw [if_pos hew, if_neg]
      rintro ⟨ha, hb⟩
      rcases h3 with h3 | h3
      · exact ha h3
      · exact hb h3

/-- Five works in 2020 each listing the concept label `Biology`. -/
def worksC5c : List Work := List.replicate 5 ⟨some 2020, some 0, [⟨some "Biology"⟩]⟩

/-- Witness for the amended C5: with both label sets non-empty the formula
branch is taken (here the intersection has size 1, giving score 0.2). -/
theorem c5_topic_component_witness :
    topicScoreOf 2024 worksC5c authC5 =
      qmin (idiv (overlapOf 2024 worksC5c authC5) 5) 1 :=
  (c5_topic_component 2024 worksC5c authC5).1 (by decide) (by decide)
    (by decide) (by decide)

/-! The sustained-start scan: specification of the search loop. -/

theorem findFrom_some_spec (p : ℤ → Bool) :
    ∀ (n : ℕ) (y z : ℤ), findFrom p y n = some z →
      p z = true ∧ y ≤ z ∧ z < y + n ∧ ∀ w, y ≤ w → w < z → p w = false := by
  intro n
  induction n with
  | zero =>
    intro y z h
    simp [findFrom] at h
  | succ n ih =>
    intro y z h
    unfold findFrom at h
    by_cases hp : p y = true
    · rw [if_pos hp] at h
      obtain rfl := Option.some.inj h
      refine ⟨hp, le_refl _, by omega, ?_⟩
      intro w hw1 hw2
      exact absurd (lt_of_le_of_lt hw1 hw2) (lt_irrefl _)
    · rw [if_neg hp] at h
      obtain ⟨h1, h2, h3, h4⟩ := ih (y+1) z h
      refine ⟨h1, by omega, by omega, ?_⟩
      intro w hw1 hw2
      by_cases hwy : w = y
      · subst hwy
        simpa using hp
      · exact h4 w (by omega) hw2

theorem findFrom_none_spec (p : ℤ → Bool) :
    ∀ (n : ℕ) (y : ℤ), findFrom p y n = none →
      ∀ w, y ≤ w → w < y + n → p w = false := by
  intro n
  induction n with
  | zero =>
    intro y _ w hw1 hw2
    exact absurd (lt_of_le_of_lt hw1 (by omega)) (lt_irrefl _)
  | succ n ih =>
    intro y h w hw1 hw2
    unfold findFrom at h
    by_cases hp : p y = true
    · rw [if_pos hp] at h
      cases h
    · rw [if_neg hp] at h
      by_cases hwy : w = y
      · subst hwy
        simpa using hp
      · exact ih (y+1) h w (by omega) (by omega)

theorem headD_mem {l : List ℤ} (h : l ≠ []) : l.headD 0 ∈ l := by
  cases l with
  | nil => exact absurd rfl h
  | cons a as => simp

theorem mem_sortedYears {cy : ℤ} {works : List Work} {y : ℤ} :
    y ∈ sortedYearsOf cy works ↔ y ∈ validYearsOf cy works :=
  (List.perm_insertionSort _ _).mem_iff

theorem sortedYears_ne {cy : ℤ} {works : List Work}
    (h : validYearsOf cy works ≠ []) : sortedYearsOf cy works ≠ [] := by
  intro hnil
  apply h
  have hp := List.perm_insertionSort (· ≤ ·) (validYearsOf cy works)
  rw [sortedYearsOf] at hnil
  rw [hnil] at hp
  exact hp.symm.eq_nil

theorem valid_mem_spec {cy : ℤ} {works : List Work} {y : ℤ}
    (h : y ∈ validYearsOf cy works) : 1900 < y ∧ y ≤ cy := by
  unfold validYearsOf at h
  rw [List.mem_filterMap] at h
  obtain ⟨w, _, hy⟩ := h
  cases hpy : w.publication_year with
  | none =>
    rw [hpy] at hy
    cases hy
  | some z =>
    rw [hpy] at hy
    dsimp only at hy
    by_cases hv : validYear cy z = true
    · rw [if_pos hv] at hy
      obtain rfl := Option.some.inj hy
      have hprops := of_decide_eq_true hv
      exact ⟨hprops.2.1, hprops.2.2⟩
    · rw [if_neg hv] at hy
      cases hy

theorem earliest_mem {cy : ℤ} {works : List Work}
    (hne : validYearsOf cy works ≠ []) :
    earliestOf cy works ∈ validYearsOf cy works :=
  mem_sortedYears.mp (headD_mem (sortedYears_ne hne))

theorem earliest_le {cy : ℤ} {works : List Work} {y : ℤ}
    (hy : y ∈ validYearsOf cy works) : earliestOf cy works ≤ y := by
  have hsorted : (sortedYearsOf cy works).Sorted (· ≤ ·) :=
    List.sorted_insertionSort _ _
  have hmem : y ∈ sortedYearsOf cy works := mem_sortedYears.mpr hy
  cases hcase : sortedYearsOf cy works with
  | nil =>
    rw [hcase] at hmem
    cases hmem
  | cons a rest =>
    have hE : earliestOf cy works = a := by
      unfold earliestOf
      rw [hcase]
      rfl
    rw [hcase] at hmem hsorted
    rw [hE]
    rcases List.mem_cons.mp hmem with rfl | hmem
    · exact le_refl _
    · exact List.rel_of_sorted_cons hsorted y hmem

/-- The conclusion of claim C1: the sustained start is the leftmost candidate
in `[earliest_year, current_year]` whose 3-year window holds at least 2
publications, with fallback `earliest_year`; consequently it lies between
`earliest_year` and `current_year` and the academic age is non-negative. -/
def SustainedSpec (cy : ℤ) (works : List Work) (author : Author) : Prop :=
  earliestOf cy works ≤ sustainedStartOf cy works ∧
  sustainedStartOf cy works ≤ cy ∧
  (calculate_academic_age cy works author).academic_age =
    some (cy - sustainedStartOf cy works) ∧
  0 ≤ cy - sustainedStartOf cy works ∧
  ((2 ≤ windowSumOf cy works (sustainedStartOf cy works) ∧
      ∀ y, earliestOf cy works ≤ y → y < sustainedStartOf cy works →
        windowSumOf cy works y < 2) ∨
   (sustainedStartOf cy works = earliestOf cy works ∧
      ∀ y, earliestOf cy works ≤ y → y ≤ cy → windowSumOf cy works y < 2))

/-- C1: for every input with a non-empty filtered year list, the detection
scans candidates in ascending order from `earliest_year` through
`current_year`, summing histogram counts over `[y, y+2]`, returns the first
candidate reaching 2 (falling back to `earliest_year`), and therefore
`earliest_year ≤ sustained_start_year ≤ current_year` and
`academic_age = current_year - sustained_start_year ≥ 0`. -/
theorem c1_sustained_scan (cy : ℤ) (works : List Work) (author : Author)
    (hne : validYearsOf cy works ≠ []) : SustainedSpec cy works author := by
  have hEcy : earliestOf cy works ≤ cy := (valid_mem_spec (earliest_mem hne)).2
  have hto : ((cy + 1 - earliestOf cy works).toNat : ℤ) = cy + 1 - earliestOf cy works :=
    Int.toNat_of_nonneg (by omega)
  have hage : (calculate_academic_age cy works author).academic_age =
      some (cy - sustainedStartOf cy works) := by
    rw [calculate_academic_age_main cy works author hne]
  cases hf : findFrom (sustainedPred cy works) (earliestOf cy works)
      (cy + 1 - earliestOf cy works).toNat with
  | none =>
    have hs : sustainedStartOf cy works = earliestOf cy works := by
      unfold sustainedStartOf
      rw [hf]
      rfl
    have hall := findFrom_none_spec _ _ _ hf
    refine ⟨le_of_eq hs.symm, ?_, hage, ?_, Or.inr ⟨hs, ?_⟩⟩
    · rw [hs]
      exact hEcy
    · rw [hs]
      omega
    · intro y hy1 hy2
      have hp := hall y hy1 (by omega)
      have := of_decide_eq_false hp
      omega
  | some z =>
    have hs : sustainedStartOf cy works = z := by
      unfold sustainedStartOf
      rw [hf]
      rfl
    obtain ⟨hp, hyz, hzlt, hmin⟩ := findFrom_some_spec _ _ _ _ hf
    refine ⟨?_, ?_, hage, ?_, Or.inl ⟨?_, ?_⟩⟩
    · rw [hs]
      exact hyz
    · rw [hs]
      omega
    · rw [hs]
      omega
    · rw [hs]
      exact of_decide_eq_true hp
    · intro y hy1 hy2
      rw [hs] at hy2
      have hpy := hmin y hy1 hy2
      have := of_decide_eq_false hpy
      omega

/-- Witness for C1 at Scenario B (years `[2020, 2021]`, current year 2024). -/
theorem c1_sustained_scan_witness : SustainedSpec 2024 scenBworks authEmpty :=
  c1_sustained_scan 2024 scenBworks authEmpty (by decide)

/-! Confidence arithmetic: the three component scores range over small finite
sets of doubles, so the float computation can be bounded by enumeration. -/

/-- The possible temporal component values. -/
def tsetL : List ℚ :=
  [1, fl (Rat.divInt 9 10), fl (Rat.divInt 7 10), Rat.divInt 1 2, fl (Rat.divInt 3 10)]

/-- The possible volume component values. -/
def vsetL : List ℚ :=
  [1, fl (Rat.divInt 4 5), fl (Rat.divInt 3 5), fl (Rat.divInt 2 5)]

/-- The possible topic component values. -/
def psetL : List ℚ :=
  [Rat.divInt 1 2, 0, fl (Rat.divInt 1 5), fl (Rat.divInt 2 5), fl (Rat.divInt 3 5),
   fl (Rat.divInt 4 5), 1]

theorem temporalScore_mem (cy : ℤ) (works : List Work) :
    temporalScoreOf cy works ∈ tsetL := by
  unfold temporalScoreOf tsetL
  split_ifs <;> simp

theorem volumeScore_mem (cy : ℤ) (works : List Work) :
    volumeScoreOf cy works ∈ vsetL := by
  unfold volumeScoreOf vsetL
  split_ifs <;> simp

theorem qmin_idiv_mem : ∀ k ∈ List.range 51, qmin (idiv (k : ℤ) 5) 1 ∈ psetL := by
  decide

theorem dedupStr_length_le : ∀ l : List String, (dedupStr l).length ≤ l.length := by
  intro l
  induction l with
  | nil => simp [dedupStr]
  | cons a as ih =>
    unfold dedupStr
    split_ifs
    · exact Nat.le_succ_of_le ih
    · simpa using Nat.succ_le_succ ih

theorem sum_le_mul_length : ∀ (L : List ℕ) (m : ℕ), (∀ x ∈ L, x ≤ m) →
    L.sum ≤ m * L.length := by
  intro L
  induction L with
  | nil => simp
  | cons a as ih =>
    intro m hb
    have h1 : a ≤ m := hb a (List.mem_cons_self a as)
    have h2 := ih m fun x hx => hb x (List.mem_cons_of_mem a hx)
    simp only [List.sum_cons, List.length_cons]
    calc a + as.sum ≤ m + m * as.length := Nat.add_le_add h1 h2
      _ = m * (as.length + 1) := by ring

theorem earlyConceptList_length_le (cy : ℤ) (works : List Work) :
    (earlyConceptListOf cy works).length ≤ 50 := by
  unfold earlyConceptListOf
  rw [List.length_flatten]
  have h1 : ∀ x ∈ (((earlyWorksOf cy works).take 10).map fun w =>
      (w.concepts.take 5).filterMap conceptLabel).map List.length, x ≤ 5 := by
    intro x hx
    rw [List.mem_map] at hx
    obtain ⟨l, hl, rfl⟩ := hx
    rw [List.mem_map] at hl
    obtain ⟨w, _, rfl⟩ := hl
    calc ((w.concepts.take 5).filterMap conceptLabel).length
        ≤ (w.concepts.take 5).length := List.length_filterMap_le _ _
      _ ≤ 5 := List.length_take_le _ _
  have h2 := sum_le_mul_length _ 5 h1
  have h3 : ((((earlyWorksOf cy works).take 10).map fun w =>
      (w.concepts.take 5).filterMap conceptLabel).map List.length).length ≤ 10 := by
    rw [List.length_map, List.length_map]
    exact List.length_take_le _ _
  omega

theorem overlap_le_50 (cy : ℤ) (works : List Work) (author : Author) :
    overlapOf cy works author ≤ 50 := by
  unfold overlapOf
  calc (dedupStr (earlyConceptListOf cy works)).countP
        (fun nm => (topAuthorConceptsOf author).contains nm)
      ≤ (dedupStr (earlyConceptListOf cy works)).length := List.countP_le_length _
    _ ≤ (earlyConceptListOf cy works).length := dedupStr_length_le _
    _ ≤ 50 := earlyConceptList_length_le cy works

theorem topicScore_mem (cy : ℤ) (works : List Work) (author : Author) :
    topicScoreOf cy works author ∈ psetL := by
  have hhalf : Rat.divInt 1 2 ∈ psetL := by
    unfold psetL
    exact List.mem_cons_self _ _
  unfold topicScoreOf
  split_ifs
  · exact qmin_idiv_mem _ (List.mem_range.mpr
      (by have := overlap_le_50 cy works author; omega))
  · exact hhalf
  · exact hhalf
  · exact hhalf

theorem confFrom_bounds : ∀ t ∈ tsetL, ∀ v ∈ vsetL, ∀ p ∈ psetL,
    24 ≤ confFrom t v p ∧ confFrom t v p ≤ 100 := by
  decide

theorem confidenceScore_bounds (cy : ℤ) (works : List Work) (author : Author) :
    24 ≤ confidenceScoreOf cy works author ∧ confidenceScoreOf cy works author ≤ 100 :=
  confFrom_bounds _ (temporalScore_mem cy works) _ (volumeScore_mem cy works)
    _ (topicScore_mem cy works author)

/-- C2: with at least one valid year, the confidence score is exactly the
float weighted sum of the three bucketed components times 100 truncated to an
integer, it lies in `[0, 100]`, and the level is the stated threshold
function of the score. -/
theorem c2_confidence_score (cy : ℤ) (works : List Work) (author : Author)
    (hne : validYearsOf cy works ≠ []) :
    (calculate_academic_age cy works author).confidence_score =
      confFrom (temporalScoreOf cy works) (volumeScoreOf cy works)
        (topicScoreOf cy works author) ∧
    0 ≤ (calculate_academic_age cy works author).confidence_score ∧
    (calculate_academic_age cy works author).confidence_score ≤ 100 ∧
    (calculate_academic_age cy works author).confidence_level =
      confidenceLevelOf (calculate_academic_age cy works author).confidence_score := by
  have hsc : (calculate_academic_age cy works author).confidence_score =
      confidenceScoreOf cy works author := by
    rw [calculate_academic_age_main cy works author hne]
  have hlv : (calculate_academic_age cy works author).confidence_level =
      confidenceLevelOf (confidenceScoreOf cy works author) := by
    rw [calculate_academic_age_main cy works author hne]
  have hb := confidenceScore_bounds cy works author
  refine ⟨?_, ?_, ?_, ?_⟩
  · rw [hsc]
    rfl
  · rw [hsc]
    exact le_trans (by norm_num) hb.1
  · rw [hsc]
    exact hb.2
  · rw [hsc, hlv]

/-- Witness for C2 at Scenario B. -/
theorem c2_confidence_score_witness :
    (calculate_academic_age 2024 scenBworks authEmpty).confidence_score =
      confFrom (temporalScoreOf 2024 scenBworks) (volumeScoreOf 2024 scenBworks)
        (topicScoreOf 2024 scenBworks authEmpty) ∧
    0 ≤ (calculate_academic_age 2024 scenBworks authEmpty).confidence_score ∧
    (calculate_academic_age 2024 scenBworks authEmpty).confidence_score ≤ 100 ∧
    (calculate_academic_age 2024 scenBworks authEmpty).confidence_level =
      confidenceLevelOf (calculate_academic_age 2024 scenBworks authEmpty).confidence_score :=
  c2_confidence_score 2024 scenBworks authEmpty (by decide)

/-- C9: with at least one valid year the confidence score is at least 24 (the
floor of the all-minimal weighted sum 0.3·0.4 + 0.4·0.3 + 0·0.3), scores in
`(0, 24)` are unreachable, and 0 occurs exactly in the terminal no-data
results. -/
theorem c9_minimum_confidence (cy : ℤ) (works : List Work) (author : Author) :
    (validYearsOf cy works ≠ [] →
      24 ≤ (calculate_academic_age cy works author).confidence_score) ∧
    (validYearsOf cy works = [] →
      (calculate_academic_age cy works author).confidence_score = 0) ∧
    ¬(0 < (calculate_academic_age cy works author).confidence_score ∧
      (calculate_academic_age cy works author).confidence_score < 24) := by
  have h1 : validYearsOf cy works ≠ [] →
      24 ≤ (calculate_academic_age cy works author).confidence_score := by
    intro hne
    have hsc : (calculate_academic_age cy works author).confidence_score =
        confidenceScoreOf cy works author := by
      rw [calculate_academic_age_main cy works author hne]
    rw [hsc]
    exact (confidenceScore_bounds cy works author).1
  have h2 : validYearsOf cy works = [] →
      (calculate_academic_age cy works author).confidence_score = 0 := by
    intro hv
    by_cases hw : works = []
    · subst hw
      rfl
    · unfold calculate_academic_age
      rw [isEmpty_false_of_ne hw, hv]
      rfl
  refine ⟨h1, h2, ?_⟩
  by_cases hne : validYearsOf cy works = []
  · have := h2 hne
    omega
  · have := h1 hne
    omega

/-- Witness for C9: both branches at concrete inputs. -/
theorem c9_minimum_confidence_witness :
    24 ≤ (calculate_academic_age 2024 scenBworks authEmpty).confidence_score ∧
    (calculate_academic_age 2024 [w3000] authEmpty).confidence_score = 0 :=
  ⟨(c9_minimum_confidence 2024 scenBworks authEmpty).1 (by decide),
   (c9_minimum_confidence 2024 [w3000] authEmpty).2.1 (by decide)⟩

/-! The analyzer never reaches a raising operation: every `Option` step is
`some`. -/

theorem pyMedian?_isSome {xs : List ℤ} (h : xs ≠ []) : (pyMedian? xs).isSome = true := by
  unfold pyMedian?
  have hlen : xs.length ≠ 0 := fun hh => h (List.length_eq_zero.mp hh)
  rw [if_neg hlen]
  have hslen : (xs.insertionSort (· ≤ ·)).length = xs.length :=
    (List.perm_insertionSort _ _).length_eq
  by_cases hodd : xs.length % 2 = 1
  · rw [if_pos hodd]
    have hlt : xs.length / 2 < (xs.insertionSort (· ≤ ·)).length := by
      rw [hslen]
      omega
    rw [List.get?_eq_get hlt]
    rfl
  · rw [if_neg hodd]
    have hlt1 : xs.length / 2 - 1 < (xs.insertionSort (· ≤ ·)).length := by
      rw [hslen]
      omega
    have hlt2 : xs.length / 2 < (xs.insertionSort (· ≤ ·)).length := by
      rw [hslen]
      omega
    rw [List.get?_eq_get hlt1, List.get?_eq_get hlt2]
    rfl

theorem citations_ne {works : List Work} (hw : works ≠ []) :
    citationsOf works ≠ [] := by
  unfold citationsOf
  intro hh
  exact hw (List.map_eq_nil_iff.mp hh)

theorem metrics_run (cy h_index works_count : ℤ) (works : List Work)
    (hw : works ≠ []) :
    ∃ med mn, pyMedian? (citationsOf works) = some med ∧
      pyMean? (citationsOf works) = some mn ∧
      calculate_author_metrics cy works h_index works_count = some
        { median_citations := pyRound 1 med,
          mean_citations := pyRound 1 mn,
          top_10_concentration := pyRound 1 (if 0 < totalCitationsOf works then
            dmul (idiv (topSumOf works) (totalCitationsOf works)) (intQ 100) else 0),
          recent_activity_rate :=
            pyRound 1 (dmul (idiv (recentCountOf cy works) works.length) (intQ 100)),
          h_index_efficiency :=
            pyRound 3 (if 0 < works_count then idiv h_index works_count else 0) } := by
  have hcc : citationsOf works ≠ [] := citations_ne hw
  obtain ⟨med, hmed⟩ := Option.isSome_iff_exists.mp (pyMedian?_isSome hcc)
  have hccl : ((citationsOf works).length : ℤ) ≠ 0 := by
    have : (citationsOf works).length ≠ 0 := fun hh => hcc (List.length_eq_zero.mp hh)
    exact_mod_cast this
  have hmn : pyMean? (citationsOf works) =
      some (fl (Rat.divInt (citationsOf works).sum (citationsOf works).length)) := by
    unfold pyMean?
    rw [if_neg (fun hh => hcc (List.length_eq_zero.mp hh))]
  have hwlen : ((works.length : ℤ)) ≠ 0 := by
    have : works.length ≠ 0 := fun hh => hw (List.length_eq_zero.mp hh)
    exact_mod_cast this
  refine ⟨med, _, hmed, hmn, ?_⟩
  have g1 : (if (citationsOf works).isEmpty = true then some (0:ℚ)
      else pyMedian? (citationsOf works)) = some med := by
    rw [isEmpty_false_of_ne hcc, if_neg Bool.false_ne_true]
    exact hmed
  have g2 : (if (citationsOf works).isEmpty = true then some (0:ℚ)
      else pyMean? (citationsOf works)) =
      some (fl (Rat.divInt (citationsOf works).sum (citationsOf works).length)) := by
    rw [isEmpty_false_of_ne hcc, if_neg Bool.false_ne_true]
    exact hmn
  have g3 : (if 0 < totalCitationsOf works then
        (pyDivInt? (topSumOf works) (totalCitationsOf works)).bind fun q =>
          some (dmul q (intQ 100))
      else some (0:ℚ)) = some (if 0 < totalCitationsOf works then
        dmul (idiv (topSumOf works) (totalCitationsOf works)) (intQ 100) else 0) := by
    by_cases ht : 0 < totalCitationsOf works
    · rw [if_pos ht, if_pos ht]
      unfold pyDivInt?
      rw [if_neg (by omega : totalCitationsOf works ≠ 0)]
      rfl
    · rw [if_neg ht, if_neg ht]
  have g4 : (if false = true then some (0:ℚ)
      else (pyDivInt? (recentCountOf cy works) works.length).bind fun q =>
          some (dmul q (intQ 100))) =
      some (dmul (idiv (recentCountOf cy works) works.length) (intQ 100)) := by
    rw [if_neg Bool.false_ne_true]
    unfold pyDivInt?
    rw [if_neg hwlen]
    rfl
  have g5 : (if 0 < works_count then pyDivInt? h_index works_count
      else some (0:ℚ)) =
      some (if 0 < works_count then idiv h_index works_count else 0) := by
    by_cases he : 0 < works_count
    · rw [if_pos he, if_pos he]
      unfold pyDivInt?
      rw [if_neg (by omega : works_count ≠ 0)]
    · rw [if_neg he, if_neg he]
  unfold calculate_author_metrics
  rw [isEmpty_false_of_ne hw, if_neg Bool.false_ne_true, g1, g2, g3, g4, g5]
  rfl

theorem metrics_isSome (cy h_index works_count : ℤ) (works : List Work) :
    (calculate_author_metrics cy works h_index works_count).isSome = true := by
  by_cases hw : works = []
  · subst hw
    rfl
  · obtain ⟨med, mn, _, _, heq⟩ := metrics_run cy h_index works_count works hw
    rw [heq]
    rfl

theorem pyRound_one_zero : pyRound 1 0 = 0 := by decide

/-- C10: over records whose optional fields are absent or integers the
analyzer is total — every fallible step (`statistics` on empty data, division
by zero) is reached only behind its guard — a record without
`publication_year` is never counted as recent (the default 0 is below
`current_year - 5` for any reference year above 5), and a record without
`cited_by_count` contributes 0 citations. -/
theorem c10_analyzer_no_raise (cy h_index works_count : ℤ) (works : List Work)
    (w : Work) :
    (calculate_author_metrics cy works h_index works_count).isSome = true ∧
    (5 < cy → w.publication_year = none → isRecent cy w = false) ∧
    (w.cited_by_count = none → citationOf w = 0) := by
  refine ⟨metrics_isSome cy h_index works_count works, ?_, ?_⟩
  · intro h5 hnone
    unfold isRecent
    rw [hnone]
    apply decide_eq_false
    simp only [Option.getD_none]
    omega
  · intro hnone
    unfold citationOf
    rw [hnone]
    rfl

/-- Witness for C10 at concrete inputs. -/
theorem c10_analyzer_no_raise_witness :
    (calculate_author_metrics 2024 scenCworks 8 10).isSome = true ∧
    isRecent 2024 ⟨none, none, []⟩ = false ∧
    citationOf ⟨none, none, []⟩ = 0 :=
  ⟨(c10_analyzer_no_raise 2024 8 10 scenCworks ⟨none, none, []⟩).1,
   (c10_analyzer_no_raise 2024 8 10 scenCworks ⟨none, none, []⟩).2.1
     (by norm_num) rfl,
   (c10_analyzer_no_raise 2024 8 10 scenCworks ⟨none, none, []⟩).2.2 rfl⟩

/-- C7: for a non-empty works list (with the data model's non-negative
citation counts) the analyzer yields a result whose top-decile concentration
is 0 when the citation total is 0 and otherwise is the top-`k` sum
(`k = max(1, ⌊n/10⌋)`, descending sort) over the total, as a percentage;
and on citation counts `[5,3,50,2,1,0,100,4,6,7]` with `h_index = 8`,
`works_count = 10` it returns the claimed values (the doubles printed 4.5,
17.8, 56.2 and 0.8). -/
theorem c7_top_decile_formula :
    (∀ (cy h_index works_count : ℤ) (works : List Work), works ≠ [] →
      (∀ w ∈ works, 0 ≤ citationOf w) →
      ∃ m, calculate_author_metrics cy works h_index works_count = some m ∧
        (totalCitationsOf works = 0 → m.top_10_concentration = 0) ∧
        (totalCitationsOf works ≠ 0 → m.top_10_concentration =
          pyRound 1 (dmul (idiv (topSumOf works) (totalCitationsOf works))
            (intQ 100)))) ∧
    calculate_author_metrics 2024 scenCworks 8 10 = some
      { median_citations := Rat.divInt 9 2,
        mean_citations := fl (Rat.divInt 89 5),
        top_10_concentration := fl (Rat.divInt 281 5),
        recent_activity_rate := 0,
        h_index_efficiency := fl (Rat.divInt 4 5) } := by
  constructor
  · intro cy h_index works_count works hw hnn
    obtain ⟨med, mn, _, _, heq⟩ := metrics_run cy h_index works_count works hw
    have htot : 0 ≤ totalCitationsOf works := by
      apply List.sum_nonneg
      intro x hx
      unfold citationsOf at hx
      rw [List.mem_map] at hx
      obtain ⟨w, hw', rfl⟩ := hx
      exact hnn w hw'
    refine ⟨_, heq, ?_, ?_⟩
    · intro h0
      dsimp only
      rw [if_neg (by omega)]
      exact pyRound_one_zero
    · intro hne0
      dsimp only
      rw [if_pos (by omega)]
  · decide

/-- Witness for C7: the universal part applied at the citation scenario. -/
theorem c7_top_decile_formula_witness :
    ∃ m, calculate_author_metrics 2024 scenCworks 8 10 = some m ∧
      (totalCitationsOf scenCworks = 0 → m.top_10_concentration = 0) ∧
      (totalCitationsOf scenCworks ≠ 0 → m.top_10_concentration =
        pyRound 1 (dmul (idiv (topSumOf scenCworks) (totalCitationsOf scenCworks))
          (intQ 100))) :=
  c7_top_decile_formula.1 2024 8 10 scenCworks (by decide) (by decide)

end OpenAlex
